import Mathlib

/-!
Verification development for the OpenERZ API client
(`openerz_api/main.py`).

The development shallowly embeds the two classes of the source
(`OpenERZConnector` and `OpenERZParameters`) as Lean structures and pure
functions:

* JSON values decoded from response bodies are the inductive `Json`
  (strings, integers, arrays, objects).  JSON objects are key-unique
  association lists; `jLookup` is dict access, distinguishing a missing
  key (Python `KeyError`) from a present value.
* Python exceptions that the source can raise become the `PyErr` sum and
  fallible code returns `Except PyErr`.
* The `datetime` values only ever flow into `strftime("%Y-%m-%d")`, so a
  datetime is modelled as an integer count of days since 1970-01-01;
  `timedelta(days = n)` is integer addition and `strftime_Ymd` performs
  the civil-calendar conversion followed by zero-padded formatting.
* The network is an oracle `Net : Request → ClientResponse` supplied to
  each operation; the `aiohttp` surface used by the source is modelled
  by `Session` (with its `closed` flag) and `ClientResponse` (with the
  attributes `ok`, `status` and the result of `json()`).  Note that an
  `aiohttp` response exposes `status`, not `status_code`, and `None` has
  no `get` attribute; the embedding reflects those attribute errors
  exactly where the source would hit them.
* Every call returns a `CallTrace`: the `Except` result together with
  the externally observable resource effects (which GET requests were
  issued and on which session, whether a fresh private session was
  created/closed, and whether the caller-supplied session was closed).
* Python leading underscores on attribute and method names are dropped
  (`_session` becomes `session`, `_make_api_request` becomes
  `make_api_request`, and so on).
* `self.logger` calls are not modelled, except that evaluating the
  arguments of a log call can raise (and in the source does raise, for
  `r.status_code`); that failure is modelled faithfully.
-/

/-- A decoded JSON value (the fragment produced by `r.json()` that the
source manipulates: strings, integers, arrays and objects). -/
inductive Json where
  | str (s : String)
  | int (n : Int)
  | arr (xs : List Json)
  | obj (kvs : List (String × Json))

/-- Python `==` between a decoded JSON value and a string: true exactly
for an equal string; comparisons across types are `False`, never an
error. -/
def jEqStr : Json → String → Bool
  | Json.str a, b => a == b
  | _, _ => false

/-- Python `==` between a decoded JSON value and an integer. -/
def jEqInt : Json → Int → Bool
  | Json.int a, b => a == b
  | _, _ => false

/-- Python `==` between an optional JSON value and a string (used to
state the specification-side filter of `get_areas`). -/
def jEqStrO : Option Json → String → Bool
  | some v, r => jEqStr v r
  | _, _ => false

/-- Dictionary lookup on a JSON object: `some v` when the key is
present, `none` for a Python `KeyError`. -/
def jLookup : List (String × Json) → String → Option Json
  | [], _ => Option.none
  | kv :: rest, k => if kv.1 = k then some kv.2 else jLookup rest k

/-- Dictionary lookup on a normalized entry, whose values are `Option
Json` (`Option.none` standing for Python `None`).  The outer `Option`
distinguishes a missing key. -/
def jLookupN : List (String × Option Json) → String → Option (Option Json)
  | [], _ => Option.none
  | kv :: rest, k => if kv.1 = k then some kv.2 else jLookupN rest k

/-- The failure modes of `await r.json()` in `aiohttp`: a
content-type mismatch or a JSON decoding failure. -/
inductive JsonErr where
  | contentTypeErr
  | decodeErr
deriving DecidableEq

/-- The Python exceptions reachable from the embedded source. -/
inductive PyErr where
  /-- the `ValueError` raised by `_query_parameters` for a bad `param` -/
  | valueErr (param : String)
  /-- an `AttributeError`, tagged with the missing attribute -/
  | attrErr (attr : String)
  /-- a `KeyError`, tagged with the key -/
  | keyErr (key : String)
  /-- a `TypeError` (subscripting / iterating an unsuitable value) -/
  | typeErr (msg : String)
  /-- a `RuntimeError` (e.g. `aiohttp`: request on a closed session) -/
  | runtimeErr (msg : String)
  /-- an `IndexError` (`result_list[0]` on an empty list) -/
  | indexErr
  /-- a failure of `await r.json()` -/
  | jsonErr (e : JsonErr)
deriving DecidableEq

/-- The caller-suppliable `aiohttp.ClientSession`, reduced to the one
attribute the source reads: `closed`. -/
structure Session where
  closed : Bool
deriving DecidableEq

/-- A GET request as issued by `session.get(url, params=..., headers=...)`.
`params` values are `Option Json` because the source may hand `aiohttp`
a payload dictionary (values already filtered to be non-`None`) or
`None` itself. -/
structure Request where
  url : String
  params : Option (List (String × Option Json))
  headers : List (String × String)

/-- The `aiohttp` response object: the attributes `ok` and `status`,
plus the outcome of `await r.json()`.  There is no `status_code`
attribute; accessing it raises `AttributeError`. -/
structure ClientResponse where
  ok : Bool
  status : Int
  jsonBody : Except JsonErr Json

/-- The external network: what response each issued GET receives. -/
def Net := Request → ClientResponse

/-- Which session an effect happened on: the caller-supplied one or a
fresh private one created for the call. -/
inductive SessKind where
  | supplied
  | fresh
deriving DecidableEq

/-- The observable outcome of one low-level call: its result and its
resource effects. -/
structure CallTrace (α : Type) where
  /-- normal return value, or the propagated Python exception -/
  result : Except PyErr α
  /-- the GET requests actually issued, with the session used -/
  gets : List (SessKind × Request)
  /-- whether a fresh private `ClientSession` was created -/
  createdFresh : Bool
  /-- whether that private session was closed before returning -/
  closedFresh : Bool
  /-- whether the caller-supplied session was closed by the call -/
  closedSupplied : Bool

/-- Replace the result of a trace, keeping the resource effects. -/
def CallTrace.mapResult (t : CallTrace α) (f : Except PyErr α → Except PyErr β) :
    CallTrace β :=
  { result := f t.result
    gets := t.gets
    createdFresh := t.createdFresh
    closedFresh := t.closedFresh
    closedSupplied := t.closedSupplied }

/-- The session/GET/parse block shared verbatim by
`OpenERZConnector._make_api_request` (main.py lines 78-94) and
`OpenERZParameters._query_parameters` (lines 174-189):

```
if use_running_session := self._session and not self._session.closed:
    session = self._session
else:
    session = ClientSession(timeout=ClientTimeout(total=DEFAULT_TIMEOUT))
try:
    async with self._session.get(url, params=payload, headers=headers) as r:
        if not r.ok:
            self.logger.warning(..., r.status_code)
        result = await r.json()
finally:
    if not use_running_session:
        await session.close()
return result
```

Note two facts of the source reproduced here: the GET is performed on
`self._session` (NOT on the local `session`), so a missing supplied
session is an attribute access on `None` and a closed supplied session
raises at request time; and the warning for a non-OK response evaluates
`r.status_code`, an attribute an `aiohttp` response does not have. -/
def sessionGetJson (supplied : Option Session) (req : Request) (net : Net) :
    CallTrace Json :=
  let use_running_session :=
    match supplied with
    | some s => !s.closed
    | Option.none => false
  let attempt : Except PyErr Json × List (SessKind × Request) :=
    match supplied with
    | Option.none =>
      (Except.error (PyErr.attrErr "get"), [])
    | some s =>
      if s.closed then
        (Except.error (PyErr.runtimeErr "Session is closed"), [])
      else
        let r := net req
        if !r.ok then
          (Except.error (PyErr.attrErr "status_code"), [(SessKind.supplied, req)])
        else
          (r.jsonBody.mapError PyErr.jsonErr, [(SessKind.supplied, req)])
  { result := attempt.1
    gets := attempt.2
    createdFresh := !use_running_session
    closedFresh := !use_running_session
    closedSupplied := false }

/-- Zero-pad a (nonnegative) integer to two digits, as `%m` / `%d` do. -/
def pad2 (n : Int) : String :=
  if n < 10 then "0" ++ toString n else toString n

/-- Zero-pad a (nonnegative) integer to four digits, as `%Y` does. -/
def pad4 (n : Int) : String :=
  if n < 10 then "000" ++ toString n
  else if n < 100 then "00" ++ toString n
  else if n < 1000 then "0" ++ toString n
  else toString n

/-- Convert a count of days since 1970-01-01 to a (year, month, day)
civil date (the standard era-based algorithm, using truncating
division; all intermediate quantities are nonnegative). -/
def civilFromDays (z0 : Int) : Int × Int × Int :=
  let z := z0 + 719468
  let era := (if 0 ≤ z then z else z - 146096) / 146097
  let doe := z - era * 146097
  let yoe := (doe - doe / 1460 + doe / 36524 - doe / 146096) / 365
  let y := yoe + era * 400
  let doy := doe - (365 * yoe + yoe / 4 - yoe / 100)
  let mp := (5 * doy + 2) / 153
  let d := doy - (153 * mp + 2) / 5 + 1
  let m := if mp < 10 then mp + 3 else mp - 9
  (if m ≤ 2 then y + 1 else y, m, d)

/-- `datetime.strftime("%Y-%m-%d")` on a day count. -/
def strftime_Ymd (z : Int) : String :=
  let ymd := civilFromDays z
  pad4 ymd.1 ++ "-" ++ pad2 ymd.2.1 ++ "-" ++ pad2 ymd.2.2

/-- The payload construction of `_make_api_request` (main.py lines
63-74): the literal dictionary followed by
`dict(filter(lambda item: item[1] is not None, payload.items()))`.
Values are `Option Json`, `Option.none` standing for Python `None`
(the class annotations say `str`, but callers may dynamically supply
`None` for optional fields, which is exactly what the filter is for). -/
def make_payload (region area waste_type : Option String)
    (start_date end_date : String) : List (String × Option Json) :=
  let payload : List (String × Option Json) :=
    [ ("region", region.map Json.str)
    , ("area", area.map Json.str)
    , ("types", waste_type.map Json.str)
    , ("start", some (Json.str start_date))
    , ("end", some (Json.str end_date))
    , ("offset", some (Json.int 0))
    , ("limit", some (Json.int 1))
    , ("lang", some (Json.str "en"))
    , ("sort", some (Json.str "date")) ]
  payload.filter (fun item => item.2.isSome)

/-- Modelled from the spec's words, for comparison with `make_payload`
(claim C4): the payload "contains exactly the keys region, area, types,
start, end, offset, limit, lang, sort with offset=0, limit=1,
lang=\"en\", sort=\"date\"", "except that every key whose value is
absent (None) is dropped". -/
def optEntry (k : String) : Option String → List (String × Option Json)
  | Option.none => []
  | some v => [(k, some (Json.str v))]

/-- Modelled from the spec's words (claim C4); see `optEntry`. -/
def payload_per_spec (region area waste_type : Option String)
    (start_date end_date : String) : List (String × Option Json) :=
  optEntry "region" region ++ optEntry "area" area ++ optEntry "types" waste_type ++
  [ ("start", some (Json.str start_date))
  , ("end", some (Json.str end_date))
  , ("offset", some (Json.int 0))
  , ("limit", some (Json.int 1))
  , ("lang", some (Json.str "en"))
  , ("sort", some (Json.str "date")) ]

/-- The calendar endpoint URL (main.py line 75). -/
def calendarUrl : String := "https://openerz.metaodi.ch/api/calendar.json"

/-- The GET request issued by `_make_api_request`:
`session.get(url, params=payload, headers=headers)`. -/
def calendarRequest (region area waste_type : Option String)
    (start_date end_date : String) : Request :=
  { url := calendarUrl
    params := some (make_payload region area waste_type start_date end_date)
    headers := [("accept", "application/json")] }

/-- The GET request issued by `_query_parameters`:
`session.get(url, params=payload, headers=headers)` with
`url = f"https://openerz.metaodi.ch/api/parameter/{param}"`. -/
def parameterRequest (param : String)
    (payload : Option (List (String × Option Json))) : Request :=
  { url := "https://openerz.metaodi.ch/api/parameter/" ++ param
    params := payload
    headers := [("accept", "application/json")] }

/-- A successful (2xx) response carrying a decoded JSON body, used to
state network hypotheses and witnesses. -/
def okResponse (body : Json) : ClientResponse :=
  { ok := true, status := 200, jsonBody := Except.ok body }

/-- `OpenERZConnector._make_api_request` (main.py lines 55-94) as a
function of the attributes it reads.  `self.end_date.strftime` on the
initial `None` raises before any session handling. -/
def make_request (region area : Option String) (start_dt : Int)
    (end_dt : Option Int) (sess : Option Session)
    (waste_type : Option String) (net : Net) : CallTrace Json :=
  match end_dt with
  | Option.none =>
    { result := Except.error (PyErr.attrErr "strftime")
      gets := []
      createdFresh := false
      closedFresh := false
      closedSupplied := false }
  | some e =>
    let start_date := strftime_Ymd start_dt
    let end_date := strftime_Ymd e
    sessionGetJson sess
      (calendarRequest region area waste_type start_date end_date) net

/-- Python `==` between an optional JSON value (a normalized entry
field, `Option.none` standing for `None`) and an optional string (a
configured attribute, possibly `None`): `None == None` is `True`,
`None` never equals a string, and values of different types compare
unequal without error. -/
def pyEqOptStr : Option Json → Option String → Bool
  | Option.none, Option.none => true
  | some (Json.str a), some b => a == b
  | _, _ => false

/-- The dict comprehension of `_parse_api_response` (main.py lines
111-113): replace all empty value-strings with `None`. -/
def normEntry (kvs : List (String × Json)) : List (String × Option Json) :=
  kvs.map (fun kv => (kv.1, if jEqStr kv.2 "" then Option.none else some kv.2))

/-- `OpenERZConnector._parse_api_response` (main.py lines 102-127) as a
function of the configured `region` and `area`.  Subscripting a
non-object/non-array JSON value is modelled as a `TypeError` (the exact
Python error kind differs for string subscripts, which no claim
exercises).  The three comparisons short-circuit exactly as the Python
`and` chain does, so a `KeyError` on `area`/`waste_type` can only
surface once the earlier fields matched. -/
def parse_response (region area : Option String) (response : Json)
    (waste_type : Option String) :
    Except PyErr (Option (List (String × Option Json))) :=
  match response with
  | Json.obj top =>
    (match jLookup top "_metadata" with
     | Option.none => Except.error (PyErr.keyErr "_metadata")
     | some (Json.obj mdkvs) =>
       (match jLookup mdkvs "total_count" with
        | Option.none => Except.error (PyErr.keyErr "total_count")
        | some tc =>
          if jEqInt tc 0 then
            Except.ok Option.none
          else
            match jLookup top "result" with
            | Option.none => Except.error (PyErr.typeErr "NoneType is not subscriptable")
            | some (Json.arr entries) =>
              (match entries with
               | [] => Except.error PyErr.indexErr
               | e :: _ =>
                 match e with
                 | Json.obj kvs =>
                   let first_scheduled_pickup := normEntry kvs
                   (match jLookupN first_scheduled_pickup "region" with
                    | Option.none => Except.error (PyErr.keyErr "region")
                    | some rv =>
                      if pyEqOptStr rv region then
                        match jLookupN first_scheduled_pickup "area" with
                        | Option.none => Except.error (PyErr.keyErr "area")
                        | some av =>
                          if pyEqOptStr av area then
                            match jLookupN first_scheduled_pickup "waste_type" with
                            | Option.none => Except.error (PyErr.keyErr "waste_type")
                            | some wv =>
                              if pyEqOptStr wv waste_type then
                                Except.ok (some (first_scheduled_pickup.filter
                                  (fun kv => ["date", "station", "description"].contains kv.1)))
                              else Except.ok Option.none
                          else Except.ok Option.none
                      else Except.ok Option.none)
                 | _ => Except.error (PyErr.attrErr "items"))
            | some _ => Except.error (PyErr.typeErr "not subscriptable"))
     | some _ => Except.error (PyErr.typeErr "not subscriptable"))
  | _ => Except.error (PyErr.typeErr "not subscriptable")

/-- The mutable attributes of an `OpenERZConnector` instance
(main.py lines 32-37; `logger` carries no data and is omitted).
`region` and `area` are annotated `str` but held as dynamically typed
attributes, so they are `Option String` with `Option.none` standing
for `None`. -/
structure OpenERZConnector where
  region : Option String
  area : Option String
  waste_types : List String
  start_date : Int
  end_date : Option Int
  session : Option Session

/-- `OpenERZConnector._update_start_date` (main.py lines 40-43): set
the start day to today.  `datetime.now()` is the `now` argument. -/
def OpenERZConnector.update_start_date (self : OpenERZConnector) (now : Int) :
    OpenERZConnector :=
  { self with start_date := now }

/-- `OpenERZConnector._find_end_date` (main.py lines 45-53). -/
def OpenERZConnector.find_end_date (self : OpenERZConnector) (day_offset : Int) :
    OpenERZConnector :=
  { self with end_date := some (self.start_date + day_offset) }

/-- `OpenERZConnector._make_api_request` (main.py lines 55-94). -/
def OpenERZConnector.make_api_request (self : OpenERZConnector)
    (waste_type : Option String) (net : Net) : CallTrace Json :=
  make_request self.region self.area self.start_date self.end_date
    self.session waste_type net

/-- `OpenERZConnector._parse_api_response` (main.py lines 102-127). -/
def OpenERZConnector.parse_api_response (self : OpenERZConnector)
    (response : Json) (waste_type : Option String) :
    Except PyErr (Option (List (String × Option Json))) :=
  parse_response self.region self.area response waste_type

/-- `OpenERZConnector.find_next_pickup` (main.py lines 129-143):
update the start date, compute the end date, issue the request, parse
the response.  Returns the post-call instance state together with the
call trace. -/
def OpenERZConnector.find_next_pickup (self : OpenERZConnector) (now : Int)
    (waste_type : Option String) (day_offset : Int) (net : Net) :
    OpenERZConnector × CallTrace (Option (List (String × Option Json))) :=
  let s1 := self.update_start_date now
  let s2 := s1.find_end_date day_offset
  let t := s2.make_api_request waste_type net
  (s2, t.mapResult (fun r => r.bind (fun resp => s2.parse_api_response resp waste_type)))

/-- The attributes of an `OpenERZParameters` instance (main.py lines
149-157). -/
structure OpenERZParameters where
  session : Option Session

/-- The `valid_params` list of `_query_parameters` (main.py line 163). -/
def valid_params : List String := ["areas", "regions", "types"]

/-- `OpenERZParameters._query_parameters` (main.py lines 159-192):
validate `param`, then the shared session/GET/parse block, then
`result["result"]`. -/
def OpenERZParameters.query_parameters (self : OpenERZParameters)
    (param : String) (payload : Option (List (String × Option Json)))
    (net : Net) : CallTrace Json :=
  if param ∈ valid_params then
    let t := sessionGetJson self.session (parameterRequest param payload) net
    t.mapResult (fun r => r.bind (fun j =>
      match j with
      | Json.obj kvs =>
        (match jLookup kvs "result" with
         | some v => Except.ok v
         | Option.none => Except.error (PyErr.keyErr "result"))
      | _ => Except.error (PyErr.typeErr "not subscriptable")))
  else
    { result := Except.error (PyErr.valueErr param)
      gets := []
      createdFresh := false
      closedFresh := false
      closedSupplied := false }

/-- The list comprehension of `get_areas` (main.py line 202):
`[d["area"] for d in areas if d["region"] == region]`, evaluated left
to right with Python subscript errors. -/
def areasComp (region : String) : List Json → Except PyErr (List Json)
  | [] => Except.ok []
  | d :: rest =>
    match d with
    | Json.obj kvs =>
      (match jLookup kvs "region" with
       | Option.none => Except.error (PyErr.keyErr "region")
       | some rv =>
         if jEqStr rv region then
           match jLookup kvs "area" with
           | Option.none => Except.error (PyErr.keyErr "area")
           | some av => (areasComp region rest).map (fun xs => av :: xs)
         else areasComp region rest)
    | _ => Except.error (PyErr.typeErr "not subscriptable")

/-- `OpenERZParameters.get_regions` (main.py lines 194-196). -/
def OpenERZParameters.get_regions (self : OpenERZParameters) (net : Net) :
    CallTrace Json :=
  self.query_parameters "regions" Option.none net

/-- `OpenERZParameters.get_areas` (main.py lines 198-202). -/
def OpenERZParameters.get_areas (self : OpenERZParameters) (region : String)
    (net : Net) : CallTrace (List Json) :=
  let t := self.query_parameters "areas" (some [("region", some (Json.str region))]) net
  t.mapResult (fun r => r.bind (fun areas =>
    match areas with
    | Json.arr ds => areasComp region ds
    | _ => Except.error (PyErr.typeErr "not iterable")))

/-- `OpenERZParameters.get_types` (main.py lines 204-206). -/
def OpenERZParameters.get_types (self : OpenERZParameters) (region : String)
    (net : Net) : CallTrace Json :=
  self.query_parameters "types" (some [("region", some (Json.str region))]) net

/-! ### Helper lemmas -/

/-- Looking a key up in the normalized entry is looking it up in the raw
entry and normalizing the value. -/
theorem jLookupN_normEntry (kvs : List (String × Json)) (k : String) :
    jLookupN (normEntry kvs) k
      = (jLookup kvs k).map (fun v => if jEqStr v "" then Option.none else some v) := by
  induction kvs with
  | nil => rfl
  | cons kv rest ih =>
    by_cases h : kv.1 = k
    · simp [normEntry, jLookupN, jLookup, h]
    · simpa [normEntry, jLookupN, jLookup, h] using ih

/-- The shared GET block on an open supplied session with a successful,
well-formed response: the parsed body is returned, the GET went through
the supplied session, and no private session is involved. -/
theorem sessionGetJson_open_ok (s : Session) (req : Request) (net : Net)
    (body : Json) (hopen : s.closed = false)
    (hok : (net req).ok = true) (hbody : (net req).jsonBody = Except.ok body) :
    sessionGetJson (some s) req net
      = { result := Except.ok body, gets := [(SessKind.supplied, req)],
          createdFresh := false, closedFresh := false, closedSupplied := false } := by
  simp [sessionGetJson, hopen, hok, hbody, Except.mapError]

/-- With an open supplied session and a constant successful network,
`find_next_pickup` returns exactly the parse of the body against the
configured region and area. -/
theorem find_next_pickup_result (st : OpenERZConnector) (s : Session) (net : Net)
    (now day_offset : Int) (wt : Option String) (body : Json)
    (hs : st.session = some s) (hopen : s.closed = false)
    (hnet : ∀ q, net q = { ok := true, status := 200, jsonBody := Except.ok body }) :
    (st.find_next_pickup now wt day_offset net).2.result
      = parse_response st.region st.area body wt := by
  simp [OpenERZConnector.find_next_pickup, OpenERZConnector.update_start_date,
    OpenERZConnector.find_end_date, OpenERZConnector.make_api_request, make_request,
    OpenERZConnector.parse_api_response, CallTrace.mapResult, sessionGetJson,
    hs, hnet, hopen, Except.mapError, Except.bind]

/-! ### Claims -/

/-- Claim C2: for every API response whose `_metadata.total_count`
field equals 0, `find_next_pickup` returns absence (`None`), regardless
of the contents of the response's `result` list. -/
theorem claim_C2 (st : OpenERZConnector) (s : Session) (net : Net)
    (now day_offset : Int) (wt : Option String)
    (top md : List (String × Json))
    (hs : st.session = some s) (hopen : s.closed = false)
    (hnet : ∀ q, net q = { ok := true, status := 200, jsonBody := Except.ok (Json.obj top) })
    (hmd : jLookup top "_metadata" = some (Json.obj md))
    (htc : jLookup md "total_count" = some (Json.int 0)) :
    (st.find_next_pickup now wt day_offset net).2.result = Except.ok Option.none := by
  rw [find_next_pickup_result st s net now day_offset wt (Json.obj top) hs hopen hnet]
  simp [parse_response, hmd, htc, jEqInt]

/-- Witness for C2 at a concrete response with `total_count = 0` and a
junk `result` list. -/
theorem claim_C2_witness :
    ((({ region := some "Zurich", area := some "8001", waste_types := ["paper"],
         start_date := 0, end_date := Option.none,
         session := some { closed := false } } : OpenERZConnector).find_next_pickup
        20738 (some "paper") 31
        (fun _ => { ok := true, status := 200, jsonBody := Except.ok (Json.obj
          [("_metadata", Json.obj [("total_count", Json.int 0)]),
           ("result", Json.arr [Json.str "junk"])]) })).2).result
      = Except.ok Option.none :=
  claim_C2 _ { closed := false } _ 20738 31 (some "paper") _ _ rfl rfl
    (fun _ => rfl) rfl rfl

/-- Claim C1: with `total_count > 0`, if the first result entry's
(normalized) `region`, `area` or `waste_type` field does not equal the
configured region, configured area or requested waste type under
Python `==` (embedded as `pyEqOptStr`), then `find_next_pickup`
returns absence; and an event is only returned when all three match. -/
theorem claim_C1 (st : OpenERZConnector) (s : Session) (net : Net)
    (now day_offset : Int) (wt : Option String)
    (top md kvs : List (String × Json)) (rest : List Json) (tc : Int)
    (rv av wv : Option Json)
    (hs : st.session = some s) (hopen : s.closed = false)
    (hnet : ∀ q, net q = { ok := true, status := 200, jsonBody := Except.ok (Json.obj top) })
    (hmd : jLookup top "_metadata" = some (Json.obj md))
    (htc : jLookup md "total_count" = some (Json.int tc))
    (hpos : 0 < tc)
    (hres : jLookup top "result" = some (Json.arr (Json.obj kvs :: rest)))
    (hr : jLookupN (normEntry kvs) "region" = some rv)
    (ha : jLookupN (normEntry kvs) "area" = some av)
    (hw : jLookupN (normEntry kvs) "waste_type" = some wv) :
    ((pyEqOptStr rv st.region = false ∨ pyEqOptStr av st.area = false ∨
        pyEqOptStr wv wt = false) →
      (st.find_next_pickup now wt day_offset net).2.result = Except.ok Option.none)
    ∧ (∀ ev, (st.find_next_pickup now wt day_offset net).2.result
          = Except.ok (some ev) →
        pyEqOptStr rv st.region = true ∧ pyEqOptStr av st.area = true ∧
          pyEqOptStr wv wt = true) := by
  rw [find_next_pickup_result st s net now day_offset wt (Json.obj top) hs hopen hnet]
  have hne : tc ≠ 0 := by omega
  have htc0 : jEqInt (Json.int tc) 0 = false := by simp [jEqInt, hne]
  constructor
  · intro hmis
    simp only [parse_response, hmd, htc, htc0, hres, hr, ha, hw]
    rcases hmis with h | h | h <;> simp [h]
  · intro ev hev
    cases h1 : pyEqOptStr rv st.region with
    | false =>
      simp [parse_response, hmd, htc, htc0, hres, hr, ha, hw, h1] at hev
    | true =>
      cases h2 : pyEqOptStr av st.area with
      | false =>
        simp [parse_response, hmd, htc, htc0, hres, hr, ha, hw, h1, h2] at hev
      | true =>
        cases h3 : pyEqOptStr wv wt with
        | false =>
          simp [parse_response, hmd, htc, htc0, hres, hr, ha, hw, h1, h2, h3] at hev
        | true => exact ⟨rfl, rfl, rfl⟩

/-- Witness for C1 at a concrete response whose first entry's
`waste_type` ("cardboard") differs from the requested one ("paper"):
absence is returned although `total_count = 5`. -/
theorem claim_C1_witness :
    ((({ region := some "Zurich", area := some "8001", waste_types := ["paper"],
         start_date := 0, end_date := Option.none,
         session := some { closed := false } } : OpenERZConnector).find_next_pickup
        20738 (some "paper") 31
        (fun _ => { ok := true, status := 200, jsonBody := Except.ok (Json.obj
          [("_metadata", Json.obj [("total_count", Json.int 5)]),
           ("result", Json.arr [Json.obj
             [("date", Json.str "2026-10-20"), ("region", Json.str "Zurich"),
              ("area", Json.str "8001"), ("waste_type", Json.str "cardboard"),
              ("station", Json.str ""), ("description", Json.str "")]])]) })).2).result
      = Except.ok Option.none :=
  (claim_C1 _ { closed := false } _ 20738 31 (some "paper")
      [("_metadata", Json.obj [("total_count", Json.int 5)]),
       ("result", Json.arr [Json.obj
         [("date", Json.str "2026-10-20"), ("region", Json.str "Zurich"),
          ("area", Json.str "8001"), ("waste_type", Json.str "cardboard"),
          ("station", Json.str ""), ("description", Json.str "")]])]
      [("total_count", Json.int 5)]
      [("date", Json.str "2026-10-20"), ("region", Json.str "Zurich"),
       ("area", Json.str "8001"), ("waste_type", Json.str "cardboard"),
       ("station", Json.str ""), ("description", Json.str "")]
      [] 5 (some (Json.str "Zurich")) (some (Json.str "8001"))
      (some (Json.str "cardboard"))
      rfl rfl (fun _ => rfl) rfl rfl (by decide) rfl rfl rfl rfl).1
    (Or.inr (Or.inr rfl))

/-- Filtering an entry by a key predicate does not change lookups of
keys the predicate keeps. -/
theorem jLookupN_filter_key (q : String → Bool) (l : List (String × Option Json))
    (k : String) (hk : q k = true) :
    jLookupN (l.filter (fun kv => q kv.1)) k = jLookupN l k := by
  induction l with
  | nil => rfl
  | cons kv rest ih =>
    rw [List.filter_cons]
    by_cases hp : q kv.1 = true
    · rw [if_pos hp]
      simp only [jLookupN]
      by_cases h : kv.1 = k
      · rw [if_pos h, if_pos h]
      · rw [if_neg h, if_neg h]
        exact ih
    · rw [if_neg hp]
      by_cases h : kv.1 = k
      · exact absurd (by rw [h]; exact hk) hp
      · simp only [jLookupN]
        rw [if_neg h]
        exact ih

/-- Claim C3: when the first result entry matches the configured
region, area and requested waste type, `find_next_pickup` returns a
`PickupEvent` holding exactly the `date`, `station` and `description`
fields of the entry; a field whose raw value is the empty string comes
back as absence (`Option.none`), and a non-empty raw `date` value is
preserved verbatim. -/
theorem claim_C3 (st : OpenERZConnector) (s : Session) (net : Net)
    (now day_offset : Int) (wt : Option String)
    (top md kvs : List (String × Json)) (rest : List Json) (tc : Int)
    (rv av wv : Option Json)
    (hs : st.session = some s) (hopen : s.closed = false)
    (hnet : ∀ q, net q = { ok := true, status := 200, jsonBody := Except.ok (Json.obj top) })
    (hmd : jLookup top "_metadata" = some (Json.obj md))
    (htc : jLookup md "total_count" = some (Json.int tc))
    (hpos : 0 < tc)
    (hres : jLookup top "result" = some (Json.arr (Json.obj kvs :: rest)))
    (hr : jLookupN (normEntry kvs) "region" = some rv)
    (hm1 : pyEqOptStr rv st.region = true)
    (ha : jLookupN (normEntry kvs) "area" = some av)
    (hm2 : pyEqOptStr av st.area = true)
    (hw : jLookupN (normEntry kvs) "waste_type" = some wv)
    (hm3 : pyEqOptStr wv wt = true) :
    (st.find_next_pickup now wt day_offset net).2.result
      = Except.ok (some ((normEntry kvs).filter
          (fun kv => ["date", "station", "description"].contains kv.1)))
    ∧ (∀ kv, kv ∈ (normEntry kvs).filter
          (fun kv => ["date", "station", "description"].contains kv.1) →
        kv.1 = "date" ∨ kv.1 = "station" ∨ kv.1 = "description")
    ∧ (∀ k, k = "date" ∨ k = "station" ∨ k = "description" →
        jLookupN ((normEntry kvs).filter
            (fun kv => ["date", "station", "description"].contains kv.1)) k
          = (jLookup kvs k).map (fun v => if jEqStr v "" then Option.none else some v))
    ∧ (∀ d, jLookup kvs "date" = some (Json.str d) → d ≠ "" →
        jLookupN ((normEntry kvs).filter
            (fun kv => ["date", "station", "description"].contains kv.1)) "date"
          = some (some (Json.str d))) := by
  have hproj : ∀ k, k = "date" ∨ k = "station" ∨ k = "description" →
      jLookupN ((normEntry kvs).filter
          (fun kv => ["date", "station", "description"].contains kv.1)) k
        = (jLookup kvs k).map (fun v => if jEqStr v "" then Option.none else some v) := by
    intro k hk
    rcases hk with h | h | h <;> subst h <;>
      rw [jLookupN_filter_key (fun s => ["date", "station", "description"].contains s)
            _ _ (by decide),
          jLookupN_normEntry]
  refine ⟨?_, ?_, hproj, ?_⟩
  · rw [find_next_pickup_result st s net now day_offset wt (Json.obj top) hs hopen hnet]
    have hne : tc ≠ 0 := by omega
    have htc0 : jEqInt (Json.int tc) 0 = false := by simp [jEqInt, hne]
    simp [parse_response, hmd, htc, htc0, hres, hr, ha, hw, hm1, hm2, hm3]
  · intro kv hkv
    have h2 := (List.mem_filter.mp hkv).2
    simpa [List.contains, List.elem_eq_mem, List.mem_cons] using h2
  · intro d hd hne
    rw [hproj "date" (Or.inl rfl), hd]
    simp [jEqStr, hne]

/-- Witness for C3 at a concrete matching response with empty-string
`station` and `description` and a non-empty `date`. -/
theorem claim_C3_witness :
    ((({ region := some "Zurich", area := some "8001", waste_types := ["paper"],
         start_date := 0, end_date := Option.none,
         session := some { closed := false } } : OpenERZConnector).find_next_pickup
        20738 (some "paper") 31
        (fun _ => { ok := true, status := 200, jsonBody := Except.ok (Json.obj
          [("_metadata", Json.obj [("total_count", Json.int 5)]),
           ("result", Json.arr [Json.obj
             [("date", Json.str "2026-10-20"), ("region", Json.str "Zurich"),
              ("area", Json.str "8001"), ("waste_type", Json.str "paper"),
              ("station", Json.str ""), ("description", Json.str "")]])]) })).2).result
      = Except.ok (some [("date", some (Json.str "2026-10-20")),
          ("station", Option.none), ("description", Option.none)]) :=
  Eq.trans
    ((claim_C3
        { region := some "Zurich", area := some "8001", waste_types := ["paper"],
          start_date := 0, end_date := Option.none,
          session := some { closed := false } }
        { closed := false } _ 20738 31 (some "paper")
        [("_metadata", Json.obj [("total_count", Json.int 5)]),
         ("result", Json.arr [Json.obj
           [("date", Json.str "2026-10-20"), ("region", Json.str "Zurich"),
            ("area", Json.str "8001"), ("waste_type", Json.str "paper"),
            ("station", Json.str ""), ("description", Json.str "")]])]
        [("total_count", Json.int 5)]
        [("date", Json.str "2026-10-20"), ("region", Json.str "Zurich"),
         ("area", Json.str "8001"), ("waste_type", Json.str "paper"),
         ("station", Json.str ""), ("description", Json.str "")]
        [] 5 (some (Json.str "Zurich")) (some (Json.str "8001"))
        (some (Json.str "paper"))
        rfl rfl (fun _ => rfl) rfl rfl (by decide) rfl rfl rfl rfl rfl rfl rfl).1)
    rfl

/-- Claim C4: the payload built by `_make_api_request` is exactly the
spec's payload — the keys region, area, types, start, end, offset,
limit, lang, sort with `offset = 0`, `limit = 1`, `lang = "en"`,
`sort = "date"`, minus every key whose value is `None`; no `None`
value survives the filter; the payload is what the outgoing GET
carries; and the dates are formatted `YYYY-MM-DD`. -/
theorem claim_C4 (region area waste_type : Option String) (sd edv : Int)
    (s : Session) (net : Net) (hopen : s.closed = false) :
    make_payload region area waste_type (strftime_Ymd sd) (strftime_Ymd edv)
      = payload_per_spec region area waste_type (strftime_Ymd sd) (strftime_Ymd edv)
    ∧ (∀ kv, kv ∈ make_payload region area waste_type (strftime_Ymd sd) (strftime_Ymd edv) →
        kv.2 ≠ Option.none)
    ∧ (make_request region area sd (some edv) (some s) waste_type net).gets
      = [(SessKind.supplied,
          calendarRequest region area waste_type (strftime_Ymd sd) (strftime_Ymd edv))]
    ∧ (∃ y m d, strftime_Ymd sd = pad4 y ++ "-" ++ pad2 m ++ "-" ++ pad2 d)
    ∧ (∃ y m d, strftime_Ymd edv = pad4 y ++ "-" ++ pad2 m ++ "-" ++ pad2 d) := by
  refine ⟨?_, ?_, ?_, ?_, ?_⟩
  · cases region <;> cases area <;> cases waste_type <;> rfl
  · intro kv hkv
    have h2 := (List.mem_filter.mp hkv).2
    exact Option.isSome_iff_ne_none.mp h2
  · simp only [make_request, sessionGetJson, hopen]
    cases hok : (net (calendarRequest region area waste_type
        (strftime_Ymd sd) (strftime_Ymd edv))).ok <;> simp [hok]
  · exact ⟨(civilFromDays sd).1, (civilFromDays sd).2.1, (civilFromDays sd).2.2, rfl⟩
  · exact ⟨(civilFromDays edv).1, (civilFromDays edv).2.1, (civilFromDays edv).2.2, rfl⟩

/-- Witness for C4 at a concrete configuration with an absent (`None`)
area: the payload equals the spec payload, which drops the `area` key. -/
theorem claim_C4_witness :
    make_payload (some "Zurich") Option.none (some "paper")
        (strftime_Ymd 20738) (strftime_Ymd 20769)
      = payload_per_spec (some "Zurich") Option.none (some "paper")
          (strftime_Ymd 20738) (strftime_Ymd 20769) :=
  (claim_C4 (some "Zurich") Option.none (some "paper") 20738 20769 { closed := false }
    (fun _ => { ok := true, status := 200, jsonBody := Except.ok (Json.obj []) }) rfl).1

/-- The shared GET block can fail in several ways, but never with the
`ValueError` of the parameter validation. -/
theorem sessionGetJson_no_valueErr (supplied : Option Session) (req : Request)
    (net : Net) (msg : String) :
    (sessionGetJson supplied req net).result ≠ Except.error (PyErr.valueErr msg) := by
  unfold sessionGetJson
  cases supplied with
  | none => simp
  | some s =>
    cases hc : s.closed
    · cases hok : (net req).ok
      · simp [hc, hok]
      · cases hb : (net req).jsonBody <;> simp [hc, hok, hb, Except.mapError]
    · simp [hc]

/-- For a valid `param`, `_query_parameters` never raises the
invalid-argument `ValueError` (its other failure modes are attribute,
runtime, key, type or JSON errors). -/
theorem query_parameters_no_valueErr (self : OpenERZParameters) (param : String)
    (payload : Option (List (String × Option Json))) (net : Net)
    (hp : param ∈ valid_params) (msg : String) :
    (self.query_parameters param payload net).result
      ≠ Except.error (PyErr.valueErr msg) := by
  unfold OpenERZParameters.query_parameters
  rw [if_pos hp]
  simp only [CallTrace.mapResult]
  cases ht : (sessionGetJson self.session (parameterRequest param payload) net).result with
  | error e =>
    have hne := sessionGetJson_no_valueErr self.session
      (parameterRequest param payload) net msg
    rw [ht] at hne
    simpa [Except.bind] using hne
  | ok j =>
    cases j with
    | str a => simp [Except.bind]
    | int n => simp [Except.bind]
    | arr xs => simp [Except.bind]
    | obj kvs => cases hl : jLookup kvs "result" <;> simp [Except.bind, hl]

/-- Claim C5: `_query_parameters` fails with the invalid-argument
`ValueError` — and issues no GET request at all — for every `param`
outside `{"areas", "regions", "types"}`, and never raises that error
for a `param` inside the set. -/
theorem claim_C5 (self : OpenERZParameters) (param : String)
    (payload : Option (List (String × Option Json))) (net : Net) :
    (param ∉ valid_params →
      (self.query_parameters param payload net).result
          = Except.error (PyErr.valueErr param)
        ∧ (self.query_parameters param payload net).gets = [])
    ∧ (param ∈ valid_params →
      ∀ msg, (self.query_parameters param payload net).result
          ≠ Except.error (PyErr.valueErr msg)) := by
  constructor
  · intro h
    unfold OpenERZParameters.query_parameters
    rw [if_neg h]
    exact ⟨rfl, rfl⟩
  · intro h msg
    exact query_parameters_no_valueErr self param payload net h msg

/-- Witness for C5: `"bogus"` fails fast with no GET issued, while
`"areas"` never raises the invalid-argument error. -/
theorem claim_C5_witness :
    (({ session := some { closed := false } } : OpenERZParameters).query_parameters
        "bogus" Option.none
        (fun _ => okResponse (Json.obj [("result", Json.arr [])]))).result
      = Except.error (PyErr.valueErr "bogus")
    ∧ (({ session := some { closed := false } } : OpenERZParameters).query_parameters
        "bogus" Option.none
        (fun _ => okResponse (Json.obj [("result", Json.arr [])]))).gets = []
    ∧ ∀ msg, (({ session := some { closed := false } } : OpenERZParameters).query_parameters
        "areas" Option.none
        (fun _ => okResponse (Json.obj [("result", Json.arr [])]))).result
        ≠ Except.error (PyErr.valueErr msg) :=
  ⟨((claim_C5 { session := some { closed := false } } "bogus" Option.none
      (fun _ => okResponse (Json.obj [("result", Json.arr [])]))).1 (by decide)).1,
   ((claim_C5 { session := some { closed := false } } "bogus" Option.none
      (fun _ => okResponse (Json.obj [("result", Json.arr [])]))).1 (by decide)).2,
   fun msg => (claim_C5 { session := some { closed := false } } "areas" Option.none
      (fun _ => okResponse (Json.obj [("result", Json.arr [])]))).2 (by decide) msg⟩

/-- The `get_areas` list comprehension, on entries that all carry
`region` and `area` keys, equals the spec-side filter-then-project. -/
theorem areasComp_eq (region : String) (ds : List (List (String × Json)))
    (h : ∀ d ∈ ds, (jLookup d "region").isSome = true ∧ (jLookup d "area").isSome = true) :
    areasComp region (ds.map Json.obj)
      = Except.ok ((ds.filter (fun d => jEqStrO (jLookup d "region") region)).filterMap
          (fun d => jLookup d "area")) := by
  induction ds with
  | nil => rfl
  | cons d rest ih =>
    obtain ⟨h1, h2⟩ := h d (List.mem_cons_self _ _)
    have ih' := ih (fun e he => h e (List.mem_cons_of_mem _ he))
    cases hr : jLookup d "region" with
    | none => rw [hr] at h1; simp at h1
    | some rv =>
      cases ha : jLookup d "area" with
      | none => rw [ha] at h2; simp at h2
      | some av =>
        by_cases heq : jEqStr rv region = true
        · simp [areasComp, List.filter_cons, List.filterMap_cons, jEqStrO,
            hr, ha, heq, ih', Except.map]
        · simp [areasComp, List.filter_cons, List.filterMap_cons, jEqStrO,
            hr, ha, heq, ih', Except.map]

/-- Claim C6: `get_areas(region)` returns exactly the `area` fields of
the raw result entries whose `region` field equals the given region,
in order, and nothing else. -/
theorem claim_C6 (self : OpenERZParameters) (region : String) (s : Session)
    (net : Net) (ds : List (List (String × Json)))
    (hs : self.session = some s) (hopen : s.closed = false)
    (hnet : ∀ q, net q = okResponse (Json.obj [("result", Json.arr (ds.map Json.obj))]))
    (hkeys : ∀ d ∈ ds, (jLookup d "region").isSome = true
        ∧ (jLookup d "area").isSome = true) :
    (self.get_areas region net).result
      = Except.ok ((ds.filter (fun d => jEqStrO (jLookup d "region") region)).filterMap
          (fun d => jLookup d "area")) := by
  unfold OpenERZParameters.get_areas OpenERZParameters.query_parameters
  rw [if_pos (by decide : ("areas" : String) ∈ valid_params)]
  simp only [CallTrace.mapResult, sessionGetJson, hs, hopen, hnet, okResponse,
    Except.mapError, Except.bind, jLookup]
  simpa using areasComp_eq region ds hkeys

/-- Witness for C6 at the spec's example: two entries for Zurich/A and
Bern/B; `get_areas("Zurich")` returns only `"A"`. -/
theorem claim_C6_witness :
    (({ session := some { closed := false } } : OpenERZParameters).get_areas "Zurich"
        (fun _ => okResponse (Json.obj [("result", Json.arr
            [ Json.obj [("region", Json.str "Zurich"), ("area", Json.str "A")]
            , Json.obj [("region", Json.str "Bern"), ("area", Json.str "B")] ])]))).result
      = Except.ok [Json.str "A"] :=
  Eq.trans
    (claim_C6 { session := some { closed := false } } "Zurich" { closed := false } _
      [ [("region", Json.str "Zurich"), ("area", Json.str "A")]
      , [("region", Json.str "Bern"), ("area", Json.str "B")] ]
      rfl rfl (fun _ => rfl) (by decide))
    rfl

/-- `OpenERZParameters._query_parameters` (main.py lines 159-192) in
the same state-passing form as `OpenERZConnector.find_next_pickup`:
the body binds only locals (`valid_params`, `headers`, `url`,
`session`, `r`, `result`) and assigns no instance attribute, so the
post-call instance is the pre-call instance. -/
def OpenERZParameters.query_parameters_state (self : OpenERZParameters)
    (param : String) (payload : Option (List (String × Option Json)))
    (net : Net) : OpenERZParameters × CallTrace Json :=
  (self, self.query_parameters param payload net)

/-- `OpenERZParameters.get_regions` (main.py lines 194-196) in
state-passing form; the body assigns no instance attribute. -/
def OpenERZParameters.get_regions_state (self : OpenERZParameters) (net : Net) :
    OpenERZParameters × CallTrace Json :=
  (self, self.get_regions net)

/-- `OpenERZParameters.get_areas` (main.py lines 198-202) in
state-passing form; the body assigns no instance attribute. -/
def OpenERZParameters.get_areas_state (self : OpenERZParameters)
    (region : String) (net : Net) : OpenERZParameters × CallTrace (List Json) :=
  (self, self.get_areas region net)

/-- `OpenERZParameters.get_types` (main.py lines 204-206) in
state-passing form; the body assigns no instance attribute. -/
def OpenERZParameters.get_types_state (self : OpenERZParameters)
    (region : String) (net : Net) : OpenERZParameters × CallTrace Json :=
  (self, self.get_types region net)

/-- A failure (non-2xx) response carrying a decoded JSON body. -/
def badResponse (status : Int) (body : Json) : ClientResponse :=
  { ok := false, status := status, jsonBody := Except.ok body }

/-- Claim C7 (code bug): on a non-2xx response the source evaluates
`r.status_code` as the warning's argument, but an `aiohttp` response
has `status`, not `status_code`, so both `_query_parameters` and
`_make_api_request` raise `AttributeError` instead of logging and
returning the parsed JSON body. -/
theorem claim_C7 :
    (({ session := some { closed := false } } : OpenERZParameters).query_parameters
        "regions" Option.none
        (fun _ => badResponse 500 (Json.obj [("result", Json.arr [])]))).result
      = Except.error (PyErr.attrErr "status_code")
    ∧ ((({ region := some "Zurich", area := some "8001", waste_types := ["paper"],
           start_date := 20738, end_date := some 20769,
           session := some { closed := false } } : OpenERZConnector).make_api_request
        (some "paper")
        (fun _ => badResponse 500 (Json.obj [("result", Json.arr [])]))).result
      = Except.error (PyErr.attrErr "status_code")) :=
  ⟨rfl, rfl⟩

/-- Claim C8 (code bug): the GET is issued on `self._session`, not on
the local `session`.  With no supplied session the call creates and
closes a private session but performs the attribute access
`None.get`, raising `AttributeError` and issuing no request at all;
with a closed supplied session the private session is likewise unused
and the GET on the closed session raises `RuntimeError`.  An open
supplied session is used for the GET and is never closed. -/
theorem claim_C8 :
    ((({ region := some "Zurich", area := some "8001", waste_types := ["paper"],
         start_date := 20738, end_date := some 20769,
         session := Option.none } : OpenERZConnector).make_api_request
        (some "paper") (fun _ => okResponse (Json.obj []))).result
      = Except.error (PyErr.attrErr "get"))
    ∧ ((({ region := some "Zurich", area := some "8001", waste_types := ["paper"],
           start_date := 20738, end_date := some 20769,
           session := Option.none } : OpenERZConnector).make_api_request
        (some "paper") (fun _ => okResponse (Json.obj []))).gets = [])
    ∧ ((({ region := some "Zurich", area := some "8001", waste_types := ["paper"],
           start_date := 20738, end_date := some 20769,
           session := Option.none } : OpenERZConnector).make_api_request
        (some "paper") (fun _ => okResponse (Json.obj []))).createdFresh = true)
    ∧ ((({ region := some "Zurich", area := some "8001", waste_types := ["paper"],
           start_date := 20738, end_date := some 20769,
           session := Option.none } : OpenERZConnector).make_api_request
        (some "paper") (fun _ => okResponse (Json.obj []))).closedFresh = true)
    ∧ ((({ region := some "Zurich", area := some "8001", waste_types := ["paper"],
           start_date := 20738, end_date := some 20769,
           session := some { closed := true } } : OpenERZConnector).make_api_request
        (some "paper") (fun _ => okResponse (Json.obj []))).result
      = Except.error (PyErr.runtimeErr "Session is closed"))
    ∧ ((({ region := some "Zurich", area := some "8001", waste_types := ["paper"],
           start_date := 20738, end_date := some 20769,
           session := some { closed := true } } : OpenERZConnector).make_api_request
        (some "paper") (fun _ => okResponse (Json.obj []))).gets = [])
    ∧ ((({ region := some "Zurich", area := some "8001", waste_types := ["paper"],
           start_date := 20738, end_date := some 20769,
           session := some { closed := false } } : OpenERZConnector).make_api_request
        (some "paper") (fun _ => okResponse (Json.obj []))).closedSupplied = false)
    ∧ ((({ region := some "Zurich", area := some "8001", waste_types := ["paper"],
           start_date := 20738, end_date := some 20769,
           session := some { closed := false } } : OpenERZConnector).make_api_request
        (some "paper") (fun _ => okResponse (Json.obj []))).createdFresh = false) :=
  ⟨rfl, rfl, rfl, rfl, rfl, rfl, rfl, rfl⟩

/-- Counterexample to claim C9 as stated: a `find_next_pickup` call
does change the component's state — the instance attributes
`start_date` and `end_date` are overwritten and survive the call. -/
theorem claim_C9_counterexample :
    ((({ region := some "Zurich", area := some "8001", waste_types := ["paper"],
         start_date := 0, end_date := Option.none,
         session := Option.none } : OpenERZConnector).find_next_pickup
        20738 (some "paper") 31 (fun _ => okResponse (Json.obj []))).1)
      ≠ ({ region := some "Zurich", area := some "8001", waste_types := ["paper"],
           start_date := 0, end_date := Option.none,
           session := Option.none } : OpenERZConnector) :=
  fun h => absurd (congrArg OpenERZConnector.end_date h) (by decide)

/-- Claim C9 (amended): `find_next_pickup` leaves `region`, `area`,
`waste_types` and `session` unchanged, but does persist the per-query
window on the instance, overwriting `start_date` with now and
`end_date` with now + day_offset; the inherited values of `start_date`
and `end_date` never influence a call, because they are overwritten
before use.  `OpenERZParameters` is fully stateless: no parameter
operation (`_query_parameters`, `get_regions`, `get_areas`,
`get_types`) changes any state of the component — the post-call
instance equals the pre-call instance. -/
theorem claim_C9 (st : OpenERZConnector) (now : Int) (wt : Option String)
    (off : Int) (net : Net) :
    (st.find_next_pickup now wt off net).1.region = st.region
    ∧ (st.find_next_pickup now wt off net).1.area = st.area
    ∧ (st.find_next_pickup now wt off net).1.waste_types = st.waste_types
    ∧ (st.find_next_pickup now wt off net).1.session = st.session
    ∧ (st.find_next_pickup now wt off net).1.start_date = now
    ∧ (st.find_next_pickup now wt off net).1.end_date = some (now + off)
    ∧ (∀ sd ed, ({ st with start_date := sd, end_date := ed }
          : OpenERZConnector).find_next_pickup now wt off net
        = st.find_next_pickup now wt off net)
    ∧ (∀ (p : OpenERZParameters) param payload pnet,
        (p.query_parameters_state param payload pnet).1 = p)
    ∧ (∀ (p : OpenERZParameters) pnet, (p.get_regions_state pnet).1 = p)
    ∧ (∀ (p : OpenERZParameters) r pnet, (p.get_areas_state r pnet).1 = p)
    ∧ (∀ (p : OpenERZParameters) r pnet, (p.get_types_state r pnet).1 = p) :=
  ⟨rfl, rfl, rfl, rfl, rfl, rfl, fun _ _ => rfl,
   fun _ _ _ _ => rfl, fun _ _ => rfl, fun _ _ _ => rfl, fun _ _ _ => rfl⟩

/-- Claim C10: the result of `find_next_pickup` does not depend on the
configured `waste_types` list (nor on the inherited `start_date` or
`end_date`): two connectors agreeing on `region`, `area` and `session`
produce identical call traces on the same network. -/
theorem claim_C10 (st1 st2 : OpenERZConnector)
    (h1 : st1.region = st2.region) (h2 : st1.area = st2.area)
    (h3 : st1.session = st2.session)
    (now : Int) (wt : Option String) (off : Int) (net : Net) :
    (st1.find_next_pickup now wt off net).2 = (st2.find_next_pickup now wt off net).2 := by
  simp only [OpenERZConnector.find_next_pickup, OpenERZConnector.update_start_date,
    OpenERZConnector.find_end_date, OpenERZConnector.make_api_request,
    OpenERZConnector.parse_api_response]
  rw [h1, h2, h3]

/-- Witness for C10: two connectors differing in `waste_types` (and in
their inherited dates) produce the same call trace. -/
theorem claim_C10_witness :
    ((({ region := some "Zurich", area := some "8001", waste_types := ["paper"],
         start_date := 0, end_date := Option.none,
         session := some { closed := false } } : OpenERZConnector).find_next_pickup
        20738 (some "paper") 31 (fun _ => okResponse (Json.obj []))).2)
      = ((({ region := some "Zurich", area := some "8001",
             waste_types := ["cardboard", "organic"],
             start_date := 7, end_date := some 99,
             session := some { closed := false } } : OpenERZConnector).find_next_pickup
          20738 (some "paper") 31 (fun _ => okResponse (Json.obj []))).2) :=
  claim_C10
    { region := some "Zurich", area := some "8001", waste_types := ["paper"],
      start_date := 0, end_date := Option.none,
      session := some { closed := false } }
    { region := some "Zurich", area := some "8001",
      waste_types := ["cardboard", "organic"],
      start_date := 7, end_date := some 99,
      session := some { closed := false } }
    rfl rfl rfl 20738 (some "paper") 31 (fun _ => okResponse (Json.obj []))
